import Mathlib

/-!
Verification of the `enhanced-input` password-input hook and wrapper view
(`src/index.tsx`) via a shallow embedding in Lean 4.

The embedding mirrors the source file:
* `usePasswordInput` hook state (`showPassword`, `inputValue`) as a state
  machine driven by toggle / change events;
* `combineClasses` and the default class constants;
* `InputWrapper` as a pure function from props to a rendered-view tree;
* the `setTimeout`-deferred focus/caret action of `togglePassword` as a
  scheduled action queue acting on an optional DOM input element.
-/

namespace EnhancedInput

/-- An opaque renderable icon (`React.ReactNode`).  The two built-in SVG
glyphs are distinguished constructors; caller-supplied icons are `custom`. -/
inductive Icon where
  | defShow
  | defHide
  | custom (id : Nat)
deriving DecidableEq, Repr

/-- `PasswordConfig.icons`: `{show?, hide?}`, each field optional. -/
structure IconsConfig where
  show' : Option Icon
  hide : Option Icon
deriving DecidableEq, Repr

/-- `interface PasswordConfig { icons?: {...} }`. -/
structure PasswordConfig where
  icons : Option IconsConfig
deriving DecidableEq, Repr

/-- The `password?: boolean | PasswordConfig` prop: absent (`undefined`),
a boolean, or a config object. -/
inductive PasswordProp where
  | undef
  | bool (b : Bool)
  | config (c : PasswordConfig)
deriving DecidableEq, Repr

/-- JavaScript truthiness of the `password` prop: `undefined` and `false`
are falsy; any object (even `{}`) is truthy. -/
def PasswordProp.truthy : PasswordProp → Bool
  | .undef => false
  | .bool b => b
  | .config _ => true

/-- A class-name fragment `string | undefined | null | false`; `none`
stands for the falsy non-string values. -/
abbrev ClassFragment := Option String

/-- JavaScript truthiness of a fragment (the empty string is falsy). -/
def fragTruthy : ClassFragment → Bool
  | none => false
  | some s => s != ""

/-- `type ClassNameFn = (...classes) => string`. -/
abbrev ClassNameFn := List ClassFragment → String

/-- The `classNames` override bundle `{wrapper?, suffix?, button?}`. -/
structure ClassNames where
  wrapper : Option String
  suffix : Option String
  button : Option String

/-- `DEFAULT_ICONS`: the built-in open-eye / slashed-eye glyphs. -/
structure DefaultIcons where
  show' : Icon
  hide : Icon

def DEFAULT_ICONS : DefaultIcons :=
  { show' := Icon.defShow, hide := Icon.defHide }

/-- `DEFAULT_CLASSES` constant of the source. -/
structure DefaultClasses where
  wrapper : String
  suffix : String
  button : String

def DEFAULT_CLASSES : DefaultClasses :=
  { wrapper := "relative"
    suffix := "flex bg-white absolute right-2 top-1/2 gap-1 items-center -translate-y-1/2"
    button := "p-1 focus:outline-none" }

/-- `String.prototype.trim()`: strip whitespace from both ends
(executable model). -/
def trimString (s : String) : String :=
  String.mk (((s.data.dropWhile Char.isWhitespace).reverse.dropWhile Char.isWhitespace).reverse)

/-- `Array.prototype.join(" ")` on a list of strings. -/
def joinSpace : List String → String
  | [] => ""
  | [x] => x
  | x :: xs => x ++ " " ++ joinSpace xs

/-- `combineClasses(cn, defaultClass, customClass)`: use `cn` when given,
otherwise `[defaultClass, customClass].filter(Boolean).join(" ")`. -/
def combineClasses (cn : Option ClassNameFn) (defaultClass : String)
    (customClass : Option String) : String :=
  match cn with
  | some f => f [some defaultClass, customClass]
  | none =>
      joinSpace ((([some defaultClass, customClass] : List ClassFragment).filterMap id).filter
        (fun s => s != ""))

/-- Props of `InputWrapper`.  `children` and the pass-through HTML
attributes are opaque data carried through unchanged. -/
structure InputWrapperProps where
  children : Nat
  className : Option String
  password : PasswordProp
  showPassword : Option Bool
  classNames : ClassNames
  cn : Option ClassNameFn
  rest : List (String × String)

/-- The rendered toggle `<button>`: its `type` attribute, class string,
`aria-label`, and displayed icon. -/
structure ButtonView where
  typeAttr : String
  className : String
  ariaLabel : String
  icon : Icon
deriving DecidableEq, Repr

/-- The output of `InputWrapper`: either the plain passthrough `<div>`
(falsy `password`) or the wrapper `<div>` with a suffix `<div>` holding
the toggle button. -/
inductive RenderedView where
  | plain (className : Option String) (children : Nat) (rest : List (String × String))
  | withToggle (className : String) (children : Nat) (suffixClass : String)
      (button : ButtonView) (rest : List (String × String))
deriving DecidableEq, Repr

/-- The toggle button of a rendered view, when one exists. -/
def RenderedView.buttonView : RenderedView → Option ButtonView
  | .plain _ _ _ => none
  | .withToggle _ _ _ b _ => some b

/-- The suffix container's class of a rendered view, when one exists. -/
def RenderedView.suffixClassOf : RenderedView → Option String
  | .plain _ _ _ => none
  | .withToggle _ _ s _ _ => some s

/-- `typeof password === "boolean" ? {} : password` (only reached when
`password` is truthy, so the `undef` case is dead). -/
def configOf : PasswordProp → PasswordConfig
  | PasswordProp.config c => c
  | _ => { icons := none }

/-- `config.icons?.show ?? DEFAULT_ICONS.show`. -/
def resolvedShowIcon (p : PasswordProp) : Icon :=
  ((configOf p).icons.bind IconsConfig.show').getD DEFAULT_ICONS.show'

/-- `config.icons?.hide ?? DEFAULT_ICONS.hide`. -/
def resolvedHideIcon (p : PasswordProp) : Icon :=
  ((configOf p).icons.bind IconsConfig.hide).getD DEFAULT_ICONS.hide

/-- `InputWrapper` render function, line for line from the source:
falsy `password` yields the plain `<div className={className} {...props}>`;
otherwise resolve config, icons and the three combined classes, then the
final wrapper class, and emit the full tree. -/
def InputWrapper (p : InputWrapperProps) : RenderedView :=
  if p.password.truthy = false then
    RenderedView.plain p.className p.children p.rest
  else
    let showIcon := resolvedShowIcon p.password
    let hideIcon := resolvedHideIcon p.password
    let wrapperClass := combineClasses p.cn DEFAULT_CLASSES.wrapper p.classNames.wrapper
    let suffixClass := combineClasses p.cn DEFAULT_CLASSES.suffix p.classNames.suffix
    let buttonClass := combineClasses p.cn DEFAULT_CLASSES.button p.classNames.button
    let finalWrapperClass :=
      match p.cn with
      | some f => f [some wrapperClass, p.className]
      | none => trimString (wrapperClass ++ " " ++ (p.className.getD ""))
    let sp := p.showPassword.getD false
    RenderedView.withToggle finalWrapperClass p.children suffixClass
      { typeAttr := "button"
        className := buttonClass
        ariaLabel := if sp then "Hide password" else "Show password"
        icon := if sp then hideIcon else showIcon }
      p.rest

/-- The hook's local state: `useState(false)` and `useState("")`. -/
structure HookState where
  showPassword : Bool
  inputValue : String
deriving DecidableEq, Repr

/-- Initial hook state. -/
def initState : HookState := { showPassword := false, inputValue := "" }

/-- The events the hook reacts to: `togglePassword()` and an input change
event carrying `e.target.value`. -/
inductive Event where
  | toggle
  | change (value : String)
deriving DecidableEq, Repr

/-- One event's effect on hook state: `setShowPassword(prev => !prev)` and
`setInputValue(e.target.value)`. -/
def step (s : HookState) : Event → HookState
  | .toggle => { s with showPassword := !s.showPassword }
  | .change v => { s with inputValue := v }

/-- Process a sequence of events. -/
def run (s : HookState) (es : List Event) : HookState :=
  es.foldl step s

/-- Number of toggle events in a sequence. -/
def countToggles : List Event → Nat
  | [] => 0
  | Event.toggle :: es => countToggles es + 1
  | Event.change _ :: es => countToggles es

/-- The hook options `{password?, classNames?, cn?}`. -/
structure UsePasswordInputOptions where
  password : PasswordProp
  classNames : ClassNames
  cn : Option ClassNameFn

/-- The `inputProps` returned by the hook: empty object when `password`
is falsy, otherwise the bound props (`type`, `value`, `className`;
the `onChange` handler and `ref` bindings are function/ref values,
represented by their presence in the `bound` constructor). -/
inductive InputProps where
  | empty
  | bound (typeAttr : String) (value : String) (className : String)
deriving DecidableEq, Repr

/-- The observable part of the hook's return bundle. -/
structure HookReturn where
  inputProps : InputProps
  showPassword : Bool
  value : String

/-- `usePasswordInput`'s return bundle as a function of options and the
current state. -/
def usePasswordInput (options : UsePasswordInputOptions) (s : HookState) : HookReturn :=
  { inputProps :=
      if options.password.truthy then
        InputProps.bound (if s.showPassword then "text" else "password") s.inputValue "pr-10"
      else
        InputProps.empty
    showPassword := s.showPassword
    value := s.inputValue }

/-- The DOM input element bound through `inputRef`: its value, focus
state and selection range. -/
structure DomInput where
  value : String
  focused : Bool
  selectionStart : Nat
  selectionEnd : Nat
deriving DecidableEq, Repr

/-- The deferred callback scheduled by `togglePassword` via
`setTimeout(..., 0)`. -/
inductive DeferredAction where
  | focusCaret
deriving DecidableEq, Repr

/-- Run a deferred action against the (possibly detached) DOM input:
`if (inputRef.current) { focus(); setSelectionRange(len, len); }`.
The `Except` layer records that no exception escapes. -/
def runDeferred : DeferredAction → Option DomInput → Except String (Option DomInput)
  | .focusCaret, dom =>
      match dom with
      | some d =>
          let d1 := { d with focused := true }
          let textLength := d1.value.length
          Except.ok (some { d1 with selectionStart := textLength, selectionEnd := textLength })
      | none => Except.ok none

/-- The world the toggle operation acts on: hook state, the optional DOM
element behind `inputRef.current`, and the queue of scheduled timeouts. -/
structure World where
  hook : HookState
  dom : Option DomInput
  pending : List DeferredAction

/-- `togglePassword`: flip `showPassword` synchronously and schedule the
deferred focus/caret callback; the DOM is not touched synchronously. -/
def togglePassword (w : World) : World :=
  { w with
      hook := { w.hook with showPassword := !w.hook.showPassword }
      pending := w.pending ++ [DeferredAction.focusCaret] }

/-- `handleInputChange`: store `e.target.value` verbatim. -/
def handleInputChange (w : World) (v : String) : World :=
  { w with hook := { w.hook with inputValue := v } }

/-! ## Helper lemmas -/

theorem run_cons (s : HookState) (e : Event) (es : List Event) :
    run s (e :: es) = run (step s e) es := by
  simp [run]

theorem run_append (s : HookState) (es1 es2 : List Event) :
    run s (es1 ++ es2) = run (run s es1) es2 := by
  simp [run]

theorem run_showPassword_parity (es : List Event) :
    ∀ s : HookState, (run s es).showPassword = xor (countToggles es % 2 == 1) s.showPassword := by
  induction es with
  | nil => intro s; simp [run, countToggles]
  | cons e es ih =>
      intro s
      cases e with
      | toggle =>
          rw [run_cons]
          rw [ih]
          rcases Nat.mod_two_eq_zero_or_one (countToggles es) with h | h
          · have h2 : (countToggles es + 1) % 2 = 1 := by omega
            simp [countToggles, step, h, h2]
          · have h2 : (countToggles es + 1) % 2 = 0 := by omega
            simp [countToggles, step, h, h2]
      | change v =>
          rw [run_cons]
          rw [ih]
          simp [countToggles, step]

theorem run_changes_showPassword (vs : List String) :
    ∀ s : HookState, (run s (vs.map Event.change)).showPassword = s.showPassword := by
  induction vs with
  | nil => intro s; rfl
  | cons v vs ih =>
      intro s
      rw [List.map_cons, run_cons, ih]
      rfl

/-! ## Claims -/

/-- C1: for every event sequence, `showPassword` equals the parity of
the number of toggles since initialization (even = `false`, the initial
value; odd = `true`); a toggle never changes `inputValue`, and a change
event never changes `showPassword`. -/
theorem toggle_parity_and_independence :
    (∀ es : List Event, (run initState es).showPassword = (countToggles es % 2 == 1))
    ∧ (∀ s : HookState, (step s Event.toggle).inputValue = s.inputValue)
    ∧ (∀ (s : HookState) (v : String), (step s (Event.change v)).showPassword = s.showPassword) := by
  refine ⟨fun es => ?_, fun s => rfl, fun s v => rfl⟩
  rw [run_showPassword_parity es initState]
  simp [initState]

/-- C2: after any sequence of change events ending with value `v`, the
stored `inputValue` is exactly `v`, verbatim, and `showPassword` is
untouched (so the result is independent of the visibility flag). -/
theorem change_stores_last_verbatim :
    ∀ (s : HookState) (vs : List String) (v : String),
      (run s ((vs ++ [v]).map Event.change)).inputValue = v
      ∧ (run s ((vs ++ [v]).map Event.change)).showPassword = s.showPassword := by
  intro s vs v
  rw [List.map_append, run_append]
  constructor
  · rfl
  · show (step (run s (vs.map Event.change)) (Event.change v)).showPassword = _
    rw [show ∀ t : HookState, (step t (Event.change v)).showPassword = t.showPassword from fun t => rfl]
    exact run_changes_showPassword vs s

/-- C3: when `password` is omitted or falsy, the hook's `inputProps` is
the empty object, and the Wrapper View renders the plain container with
only the caller's class name, children and pass-through attributes — no
toggle button, no suffix container. -/
theorem falsy_password_renders_plain :
    ∀ (opts : UsePasswordInputOptions) (s : HookState) (p : InputWrapperProps),
      opts.password.truthy = false → p.password.truthy = false →
      (usePasswordInput opts s).inputProps = InputProps.empty
      ∧ InputWrapper p = RenderedView.plain p.className p.children p.rest := by
  intro opts s p h1 h2
  constructor
  · simp [usePasswordInput, h1]
  · simp [InputWrapper, h2]

/-- Witness for C3 at `password = undefined` (hook) and
`password = false` (wrapper). -/
theorem falsy_password_renders_plain_witness :
    (usePasswordInput ⟨PasswordProp.undef, ⟨none, none, none⟩, none⟩ initState).inputProps
        = InputProps.empty
    ∧ InputWrapper ⟨7, some "base", PasswordProp.bool false, none, ⟨none, none, none⟩, none, []⟩
        = RenderedView.plain (some "base") 7 [] := by
  have h := falsy_password_renders_plain
    ⟨PasswordProp.undef, ⟨none, none, none⟩, none⟩ initState
    ⟨7, some "base", PasswordProp.bool false, none, ⟨none, none, none⟩, none, []⟩
    rfl rfl
  exact h

/-- C4: in password mode the button's `aria-label` is "Hide password"
exactly when `showPassword` is true and "Show password" otherwise, and
the button's icon is the resolved hide-icon exactly when `showPassword`
is true and the resolved show-icon otherwise; hence one toggle from the
initial state moves the label from "Show password" to "Hide password"
and the icon from show-icon to hide-icon. -/
theorem button_label_icon_follow_visibility :
    ∀ p : InputWrapperProps, p.password.truthy = true →
      ((InputWrapper p).buttonView.map ButtonView.ariaLabel
          = some (if p.showPassword.getD false then "Hide password" else "Show password"))
      ∧ ((InputWrapper p).buttonView.map ButtonView.icon
          = some (if p.showPassword.getD false then resolvedHideIcon p.password
                  else resolvedShowIcon p.password))
      ∧ ((InputWrapper { p with showPassword := some false }).buttonView.map ButtonView.ariaLabel
          = some "Show password")
      ∧ ((InputWrapper { p with showPassword := some true }).buttonView.map ButtonView.ariaLabel
          = some "Hide password")
      ∧ ((InputWrapper { p with showPassword := some false }).buttonView.map ButtonView.icon
          = some (resolvedShowIcon p.password))
      ∧ ((InputWrapper { p with showPassword := some true }).buttonView.map ButtonView.icon
          = some (resolvedHideIcon p.password)) := by
  intro p h
  refine ⟨?_, ?_, ?_, ?_, ?_, ?_⟩ <;>
    simp [InputWrapper, h, RenderedView.buttonView]

/-- Witness for C4 at `password = true`, `showPassword = false`
(initial state) and its toggled counterpart. -/
theorem button_label_icon_follow_visibility_witness :
    ((InputWrapper ⟨0, none, PasswordProp.bool true, some false, ⟨none, none, none⟩, none, []⟩).buttonView.map
        ButtonView.ariaLabel = some "Show password")
    ∧ ((InputWrapper ⟨0, none, PasswordProp.bool true, some false, ⟨none, none, none⟩, none, []⟩).buttonView.map
        ButtonView.icon = some Icon.defShow)
    ∧ ((InputWrapper ⟨0, none, PasswordProp.bool true, some true, ⟨none, none, none⟩, none, []⟩).buttonView.map
        ButtonView.ariaLabel = some "Hide password")
    ∧ ((InputWrapper ⟨0, none, PasswordProp.bool true, some true, ⟨none, none, none⟩, none, []⟩).buttonView.map
        ButtonView.icon = some Icon.defHide) := by
  have h := button_label_icon_follow_visibility
    ⟨0, none, PasswordProp.bool true, some false, ⟨none, none, none⟩, none, []⟩ rfl
  exact ⟨h.1, h.2.1, h.2.2.2.1, h.2.2.2.2.2⟩

/-- C5: every toggle leaves the DOM untouched synchronously, flips the
flag, and appends the deferred focus/caret action to the timeout queue;
when that action later runs with the input still attached it focuses the
element and sets the selection range to `(L, L)` with `L` the current
value length. -/
theorem toggle_schedules_deferred_focus :
    ∀ w : World,
      (togglePassword w).dom = w.dom
      ∧ (togglePassword w).pending = w.pending ++ [DeferredAction.focusCaret]
      ∧ (togglePassword w).hook.showPassword = !w.hook.showPassword
      ∧ ∀ d : DomInput,
          runDeferred DeferredAction.focusCaret (some d) =
            Except.ok (some { value := d.value, focused := true,
                              selectionStart := d.value.length,
                              selectionEnd := d.value.length }) := by
  intro w
  exact ⟨rfl, rfl, rfl, fun d => rfl⟩

/-- C6: when the deferred step runs with the input reference detached
(`none`) it is a silent no-op — it returns `ok` (no exception) and
leaves the DOM as-is — while the toggle's state flip still happened. -/
theorem deferred_step_detached_noop :
    ∀ w : World,
      runDeferred DeferredAction.focusCaret none = Except.ok none
      ∧ (togglePassword { w with dom := none }).hook.showPassword = !w.hook.showPassword
      ∧ (togglePassword { w with dom := none }).hook.inputValue = w.hook.inputValue := by
  intro w
  exact ⟨rfl, rfl, rfl⟩

/-- C7: with `password = {icons: {show: A, hide: B}}` the button renders
exactly `A` when `showPassword` is false and exactly `B` when true (so
the built-in defaults never appear); when either icon field is absent
the corresponding built-in default fills in. -/
theorem custom_icons_override_defaults :
    ∀ (A B : Icon) (ch : Nat) (cls : Option String) (sp : Option Bool)
      (cns : ClassNames) (f : Option ClassNameFn) (rest : List (String × String)),
      ((InputWrapper ⟨ch, cls, PasswordProp.config ⟨some ⟨some A, some B⟩⟩, sp, cns, f, rest⟩).buttonView.map
          ButtonView.icon = some (if sp.getD false then B else A))
      ∧ ((InputWrapper ⟨ch, cls, PasswordProp.config ⟨some ⟨none, some B⟩⟩, sp, cns, f, rest⟩).buttonView.map
          ButtonView.icon = some (if sp.getD false then B else Icon.defShow))
      ∧ ((InputWrapper ⟨ch, cls, PasswordProp.config ⟨some ⟨some A, none⟩⟩, sp, cns, f, rest⟩).buttonView.map
          ButtonView.icon = some (if sp.getD false then Icon.defHide else A))
      ∧ ((InputWrapper ⟨ch, cls, PasswordProp.config ⟨none⟩, sp, cns, f, rest⟩).buttonView.map
          ButtonView.icon = some (if sp.getD false then Icon.defHide else Icon.defShow)) := by
  intro A B ch cls sp cns f rest
  refine ⟨?_, ?_, ?_, ?_⟩ <;>
    simp [InputWrapper, PasswordProp.truthy, RenderedView.buttonView,
      resolvedShowIcon, resolvedHideIcon, configOf, DEFAULT_ICONS]

/-- C8: when a `cn` combinator is supplied, every class-producing site —
wrapper merge, suffix merge, button merge, and the final merge of the
composed wrapper class with the caller's `className` — goes through
`cn`; in particular a constant sentinel `cn` makes every composed class
string the sentinel. -/
theorem cn_used_at_every_site :
    (∀ (f : ClassNameFn) (ch : Nat) (cls : Option String) (sp : Option Bool)
        (cns : ClassNames) (rest : List (String × String)),
      InputWrapper ⟨ch, cls, PasswordProp.bool true, sp, cns, some f, rest⟩
        = RenderedView.withToggle
            (f [some (f [some DEFAULT_CLASSES.wrapper, cns.wrapper]), cls])
            ch
            (f [some DEFAULT_CLASSES.suffix, cns.suffix])
            { typeAttr := "button"
              className := f [some DEFAULT_CLASSES.button, cns.button]
              ariaLabel := if sp.getD false then "Hide password" else "Show password"
              icon := if sp.getD false then Icon.defHide else Icon.defShow }
            rest)
    ∧ (∀ (sentinel : String) (ch : Nat) (cls : Option String) (sp : Option Bool)
        (cns : ClassNames) (rest : List (String × String)),
      InputWrapper ⟨ch, cls, PasswordProp.bool true, sp, cns, some (fun _ => sentinel), rest⟩
        = RenderedView.withToggle sentinel ch sentinel
            { typeAttr := "button"
              className := sentinel
              ariaLabel := if sp.getD false then "Hide password" else "Show password"
              icon := if sp.getD false then Icon.defHide else Icon.defShow }
            rest) := by
  constructor
  · intro f ch cls sp cns rest
    simp [InputWrapper, PasswordProp.truthy, combineClasses,
      resolvedShowIcon, resolvedHideIcon, configOf, DEFAULT_ICONS]
  · intro sentinel ch cls sp cns rest
    simp [InputWrapper, PasswordProp.truthy, combineClasses,
      resolvedShowIcon, resolvedHideIcon, configOf, DEFAULT_ICONS]

/-- C9: with no `cn`, the default merge joins the default class and the
override with a single space, filtering out absent or empty fragments so
no duplicate or dangling separator appears; concretely, a button
override "extra" yields the default button class, one space, "extra". -/
theorem default_join_composition :
    (∀ d c : String, d ≠ "" → c ≠ "" → combineClasses none d (some c) = d ++ " " ++ c)
    ∧ (∀ d : String, combineClasses none d none = d)
    ∧ (∀ d : String, combineClasses none d (some "") = d)
    ∧ (∀ c : String, c ≠ "" → combineClasses none "" (some c) = c)
    ∧ (∀ (ch : Nat) (cls : Option String) (sp : Option Bool) (w s : Option String)
        (rest : List (String × String)),
      (InputWrapper ⟨ch, cls, PasswordProp.bool true, sp, ⟨w, s, some "extra"⟩, none, rest⟩).buttonView.map
          ButtonView.className = some ("p-1 focus:outline-none" ++ " " ++ "extra")) := by
  refine ⟨?_, ?_, ?_, ?_, ?_⟩
  · intro d c hd hc
    have hd' : (d != "") = true := bne_iff_ne.mpr hd
    have hc' : (c != "") = true := bne_iff_ne.mpr hc
    simp [combineClasses, hd', hc', joinSpace]
  · intro d
    by_cases hd : d = ""
    · simp [combineClasses, hd, joinSpace]
    · have hd' : (d != "") = true := bne_iff_ne.mpr hd
      simp [combineClasses, hd', joinSpace]
  · intro d
    by_cases hd : d = ""
    · simp [combineClasses, hd, joinSpace]
    · have hd' : (d != "") = true := bne_iff_ne.mpr hd
      simp [combineClasses, hd', joinSpace]
  · intro c hc
    have hc' : (c != "") = true := bne_iff_ne.mpr hc
    simp [combineClasses, hc', joinSpace]
  · intro ch cls sp w s rest
    simp [InputWrapper, PasswordProp.truthy, combineClasses, joinSpace,
      RenderedView.buttonView, DEFAULT_CLASSES]

/-- Witness for C9: the joined-by-one-space cases and the empty-default
case at concrete strings. -/
theorem default_join_composition_witness :
    combineClasses none "p-1 focus:outline-none" (some "extra")
        = "p-1 focus:outline-none" ++ " " ++ "extra"
    ∧ combineClasses none "" (some "extra") = "extra" := by
  exact ⟨default_join_composition.1 "p-1 focus:outline-none" "extra" (by decide) (by decide),
    default_join_composition.2.2.2.1 "extra" (by decide)⟩

/-- C10: in password mode the rendered toggle button always carries the
HTML attribute `type="button"`, never the default `submit`. -/
theorem button_type_is_button :
    ∀ p : InputWrapperProps, p.password.truthy = true →
      (InputWrapper p).buttonView.map ButtonView.typeAttr = some "button" := by
  intro p h
  simp [InputWrapper, h, RenderedView.buttonView]

/-- Witness for C10 at `password = true`. -/
theorem button_type_is_button_witness :
    (InputWrapper ⟨0, none, PasswordProp.bool true, some false, ⟨none, none, none⟩, none, []⟩).buttonView.map
        ButtonView.typeAttr = some "button" :=
  button_type_is_button
    ⟨0, none, PasswordProp.bool true, some false, ⟨none, none, none⟩, none, []⟩ rfl

end EnhancedInput
